import Mathlib

/-!
Verification of the Moving-Grid ("Wave Runner") game engine, embedded from
src/src/App.tsx.

Modelling conventions:
* Grid dimensions and wave width are the compile-time constants of the source
  (rows = 15, cols = 20, waveWidth = 6).
* JavaScript numbers are modelled as exact rationals (ℚ).  Every numeric value
  the verified claims evaluate (scores, the 0.5 difficulty steps, the 1.5
  multiplier, the level*1000 thresholds) is exactly representable in IEEE
  doubles, so the ℚ model agrees with the JS runtime on them.  The only
  inexact double operation in the source, speed * 0.9 at a level-up, is
  modelled as speed * (9/10); no claim evaluates that product numerically.
* JavaScript's `%` is the truncated remainder: for a negative left operand the
  result is negative.  An assignment newGrid[i][k] = true with k < 0 creates a
  stray object property that neither the renderer (row.map) nor the hit test
  (grid[row][col] with 0 ≤ col) ever reads, so such writes never light a cell
  of the 0..cols-1 grid.  The cell predicates below reproduce this: a column c
  in [0, cols) is lit iff some loop iteration computed exactly the index c.
* The randomness of the source (Math.random in generateNewTarget and in the
  wave-pattern reroll) is passed in as explicit parameters (newTarget,
  randPattern).
-/

namespace MovingGrid

/-- rows = 15 (App.tsx line 45). -/
def rows : Nat := 15

/-- cols = 20 (App.tsx line 46). -/
def cols : Nat := 20

/-- waveWidth = 6 (App.tsx line 47). -/
def waveWidth : Nat := 6

/-- The WAVE_PATTERNS enum (App.tsx lines 12-17). -/
inductive WavePattern where
  | NORMAL
  | SPLIT
  | ZIGZAG
  | CHAOS
deriving DecidableEq, Repr

/-- JavaScript's % operator on integers: truncated remainder, so the result
has the sign of the left operand (e.g. (-5) % 20 = -5). -/
def jsRem (a n : Int) : Int :=
  if 0 ≤ a then a % n else -((-a) % n)

/-- Column index written by iteration j of the NORMAL (default) wave loop
(App.tsx lines 119-127): (position + j) % cols when direction = 1, else
((cols - 1) - (position + j)) % cols with JS remainder semantics. -/
def normalCol (direction : Int) (position j : Nat) : Int :=
  if direction = 1 then ((position + j) % cols : Nat)
  else jsRem ((cols : Int) - 1 - (position + j)) cols

/-- Whether column c of any row is lit by the NORMAL pattern: some iteration
j < waveWidth wrote index c.  Writes that compute a negative index fall
outside the array and light nothing. -/
def normalCell (direction : Int) (position c : Nat) : Bool :=
  (List.range waveWidth).any fun j => normalCol direction position j == (c : Int)

/-- Whether column c of any row is lit by the SPLIT pattern
(App.tsx lines 84-92): iteration j writes both col1 = (position + j) % cols
and col2 = ((cols - 1) - (position + j)) % cols (JS remainder); a negative
col2 falls outside the array and lights nothing. -/
def splitCell (position c : Nat) : Bool :=
  (List.range waveWidth).any fun j =>
    (((position + j) % cols : Nat) : Int) == (c : Int) ||
      jsRem ((cols : Int) - 1 - (position + j)) cols == (c : Int)

/-- The grid produced by createEmptyGrid (App.tsx lines 49-51): every cell
unlit. -/
def createEmptyGrid : Nat → Nat → Bool := fun _ _ => false

/-- The engine state: the React state variables of App (App.tsx lines 29-43)
that the game logic reads or writes, minus the purely presentational ones
(grid snapshot, color index) which are modelled separately. -/
structure GameState where
  score : ℚ
  highScore : ℚ
  level : Nat
  combo : Nat
  lives : Int
  gameOver : Bool
  speed : ℚ
  wavePattern : WavePattern
  difficulty : ℚ
  powerUpActive : Bool
  isPlaying : Bool
  targetCell : Option (Nat × Nat)
deriving Repr, DecidableEq

/-- Points awarded for a hit (App.tsx lines 195-199):
100 * min(combo + 1, 5) * level * difficulty, from the pre-hit values. -/
def points (combo level : Nat) (difficulty : ℚ) : ℚ :=
  100 * ((min (combo + 1) 5 : Nat) : ℚ) * (level : ℚ) * difficulty

/-- The shared lives-decrement logic (App.tsx lines 159-166 and 227-234):
lives -= 1; if the new value is ≤ 0, set gameOver and snapshot
highScore = max(highScore, score). -/
def loseLife (s : GameState) : GameState :=
  let newLives := s.lives - 1
  if newLives ≤ 0 then
    { s with lives := newLives, gameOver := true,
             highScore := max s.highScore s.score }
  else
    { s with lives := newLives }

/-- handleCellClick (App.tsx lines 190-237).  The grid snapshot is the lit
predicate at click time; newTarget stands for the Math.random coordinates of
generateNewTarget and randPattern for the random pattern pick at a
level-up that is a multiple of 5. -/
def handleCellClick (s : GameState) (grid : Nat → Nat → Bool) (row col : Nat)
    (newTarget : Nat × Nat) (randPattern : WavePattern) : GameState :=
  if !s.isPlaying || s.gameOver || s.targetCell.isNone then s
  else
    match s.targetCell with
    | none => s
    | some target =>
      if row = target.1 ∧ col = target.2 ∧ grid row col = true then
        let pts := points s.combo s.level s.difficulty
        let s1 := { s with score := s.score + pts, combo := s.combo + 1 }
        let s2 :=
          if s.score + pts ≥ (s.level : ℚ) * 1000 then
            let newLevel := s.level + 1
            let s3 := { s1 with level := newLevel }
            let s4 :=
              if newLevel % 3 = 0 then
                { s3 with difficulty := min (s.difficulty + 1/2) 3,
                          speed := max (s.speed * (9/10)) 50 }
              else s3
            if newLevel % 5 = 0 then { s4 with wavePattern := randPattern }
            else s4
          else s1
        { s2 with targetCell := some newTarget }
      else
        let s1 := { s with combo := 0 }
        if s.powerUpActive then s1 else loseLife s1

/-- The targetCheckId interval callback (App.tsx lines 157-168).  The timer
only exists while isPlaying && !gameOver (line 137); the callback fires only
if a target is active and no shield is active, in which case it decrements
lives (with the game-over check) and respawns the target.  It does not touch
combo. -/
def targetExpiry (s : GameState) (newTarget : Nat × Nat) : GameState :=
  if s.isPlaying && !s.gameOver then
    if s.targetCell.isSome && !s.powerUpActive then
      { loseLife s with targetCell := some newTarget }
    else s
  else s

/-- initializeGrid (App.tsx lines 53-64), the reset action: restores every
progression field to its initial value and leaves highScore (and isPlaying,
targetCell) untouched.  The grid component of the reset is createEmptyGrid. -/
def reset (s : GameState) : GameState :=
  { s with score := 0, level := 1, combo := 0, lives := 3, gameOver := false,
           speed := 100, wavePattern := WavePattern.NORMAL, difficulty := 1,
           powerUpActive := false }

/-- The discrete events that mutate the engine state: a click, a
target-expiry tick, the power-up roll succeeding (App.tsx lines 172-177,
guarded by the isPlaying && !gameOver timer setup), the power-up
deactivation one-shot (line 175), the play/pause toggle (disabled once
gameOver, line 266), and the New Game reset.  The wave tick and color tick
touch only the grid snapshot, the sweep position/direction and the color
index, none of which are GameState fields. -/
inductive Event where
  | click (row col : Nat) (grid : Nat → Nat → Bool)
      (newTarget : Nat × Nat) (randPattern : WavePattern)
  | expiry (newTarget : Nat × Nat)
  | powerUpStart
  | powerUpEnd
  | togglePlay
  | resetGame

/-- One engine transition per event. -/
def step (s : GameState) (e : Event) : GameState :=
  match e with
  | Event.click row col grid newTarget randPattern =>
      handleCellClick s grid row col newTarget randPattern
  | Event.expiry newTarget => targetExpiry s newTarget
  | Event.powerUpStart =>
      if s.isPlaying && !s.gameOver then { s with powerUpActive := true } else s
  | Event.powerUpEnd => { s with powerUpActive := false }
  | Event.togglePlay =>
      if s.gameOver then s else { s with isPlaying := !s.isPlaying }
  | Event.resetGame => reset s

/-- The state right after a fresh start: the initial React state values
(App.tsx lines 29-43) with a target spawned at (0, 0). -/
def start : GameState :=
  { score := 0, highScore := 0, level := 1, combo := 0, lives := 3,
    gameOver := false, speed := 100, wavePattern := WavePattern.NORMAL,
    difficulty := 1, powerUpActive := false, isPlaying := true,
    targetCell := some (0, 0) }

/-- A grid with every cell lit, used to drive guaranteed hits. -/
def fullGrid : Nat → Nat → Bool := fun _ _ => true

/-- One guaranteed hit: target at (0,0), clicked at (0,0) while lit, the new
target respawning at (0,0) again. -/
def hitStep (s : GameState) : GameState :=
  handleCellClick s fullGrid 0 0 (0, 0) WavePattern.NORMAL

/-- The three-way outcome of a click, following the branch structure of
handleCellClick exactly: Ignored on the early return (line 191), Hit on the
coordinate-and-lit test (line 193), Miss otherwise. -/
inductive Outcome where
  | Hit
  | Miss
  | Ignored
deriving DecidableEq, Repr

/-- Classifies a click by the branches of handleCellClick. -/
def resolveClick (s : GameState) (grid : Nat → Nat → Bool)
    (row col : Nat) : Outcome :=
  if !s.isPlaying || s.gameOver || s.targetCell.isNone then Outcome.Ignored
  else
    match s.targetCell with
    | none => Outcome.Ignored
    | some target =>
      if row = target.1 ∧ col = target.2 ∧ grid row col = true then Outcome.Hit
      else Outcome.Miss

/-- A mid-game state used to instantiate the scoring example of the spec:
pre-hit combo 2, level 3, difficulty 1.5. -/
def sC1 : GameState :=
  { start with combo := 2, level := 3, difficulty := 3/2 }

/-- A finished game: the start state with gameOver set. -/
def sGO : GameState :=
  { start with gameOver := true }

/-- A game down to its last life. -/
def sLastLife : GameState :=
  { start with lives := 1 }

/-- Three consecutive guaranteed hits from the start state
(combo 3, score 600, lives 3). -/
def threeHits : GameState :=
  hitStep (hitStep (hitStep start))

/-! Branch-characterization lemmas for the click handler and the expiry
tick, shared by the claim theorems below. -/

/-- On the early return (not playing, game over, or no target), a click
changes nothing. -/
lemma handleCellClick_ignored (s : GameState) (grid : Nat → Nat → Bool)
    (row col : Nat) (t : Nat × Nat) (p : WavePattern)
    (h : s.isPlaying = false ∨ s.gameOver = true ∨ s.targetCell = none) :
    handleCellClick s grid row col t p = s := by
  unfold handleCellClick
  rcases h with h | h | h <;> simp [h]

/-- The hit branch, all fields at once: score grows by the points formula,
combo increments, the level-up test is applied once to the post-add score,
lives/gameOver/isPlaying/highScore/powerUpActive are untouched, and the
target respawns. -/
lemma handleCellClick_hit (s : GameState) (grid : Nat → Nat → Bool)
    (row col : Nat) (t : Nat × Nat) (p : WavePattern)
    (hp : s.isPlaying = true) (hg : s.gameOver = false)
    (ht : s.targetCell = some (row, col)) (hl : grid row col = true) :
    (handleCellClick s grid row col t p).score
        = s.score + points s.combo s.level s.difficulty ∧
    (handleCellClick s grid row col t p).combo = s.combo + 1 ∧
    (handleCellClick s grid row col t p).level
        = (if s.score + points s.combo s.level s.difficulty
              ≥ (s.level : ℚ) * 1000 then s.level + 1 else s.level) ∧
    (handleCellClick s grid row col t p).lives = s.lives ∧
    (handleCellClick s grid row col t p).gameOver = false ∧
    (handleCellClick s grid row col t p).isPlaying = true ∧
    (handleCellClick s grid row col t p).highScore = s.highScore ∧
    (handleCellClick s grid row col t p).powerUpActive = s.powerUpActive ∧
    (handleCellClick s grid row col t p).targetCell = some t := by
  unfold handleCellClick
  simp only [hp, hg, ht, Bool.not_true, Bool.false_or, Option.isNone_some,
    Bool.or_false, Bool.false_eq_true, if_false, hl, and_self, if_true]
  simp only [hl, and_true, true_and]
  repeat' split
  all_goals simp_all

/-- The miss branch, all fields at once: combo resets to 0; then, unless the
shield is active, a life is lost with the game-over/high-score check; every
other field (score, level, speed, pattern, difficulty, target, isPlaying)
is untouched. -/
lemma handleCellClick_miss (s : GameState) (grid : Nat → Nat → Bool)
    (row col : Nat) (t : Nat × Nat) (p : WavePattern) (tgt : Nat × Nat)
    (hp : s.isPlaying = true) (hg : s.gameOver = false)
    (ht : s.targetCell = some tgt)
    (hm : ¬(row = tgt.1 ∧ col = tgt.2 ∧ grid row col = true)) :
    (handleCellClick s grid row col t p).score = s.score ∧
    (handleCellClick s grid row col t p).combo = 0 ∧
    (handleCellClick s grid row col t p).level = s.level ∧
    (handleCellClick s grid row col t p).speed = s.speed ∧
    (handleCellClick s grid row col t p).wavePattern = s.wavePattern ∧
    (handleCellClick s grid row col t p).difficulty = s.difficulty ∧
    (handleCellClick s grid row col t p).isPlaying = s.isPlaying ∧
    (handleCellClick s grid row col t p).targetCell = s.targetCell ∧
    (handleCellClick s grid row col t p).powerUpActive = s.powerUpActive ∧
    (handleCellClick s grid row col t p).lives
        = (if s.powerUpActive then s.lives else s.lives - 1) ∧
    (handleCellClick s grid row col t p).gameOver
        = (if s.powerUpActive = false ∧ s.lives - 1 ≤ 0 then true else false) ∧
    (handleCellClick s grid row col t p).highScore
        = (if s.powerUpActive = false ∧ s.lives - 1 ≤ 0
            then max s.highScore s.score else s.highScore) := by
  unfold handleCellClick loseLife
  simp only [hp, hg, ht, Bool.not_true, Bool.false_or, Option.isNone_some,
    Bool.or_false, Bool.false_eq_true, if_false, hm]
  by_cases hpu : s.powerUpActive <;> by_cases hl : s.lives - 1 ≤ 0 <;>
    simp [hpu, hl, hg, ht]

/-- The expiry tick, all fields at once: it fires only while playing with a
live unshielded target, in which case it decrements lives (with the
game-over/high-score check) and respawns the target; combo, score, level,
speed, pattern and difficulty are untouched in every case. -/
lemma targetExpiry_fields (s : GameState) (t : Nat × Nat) :
    (targetExpiry s t).score = s.score ∧
    (targetExpiry s t).combo = s.combo ∧
    (targetExpiry s t).level = s.level ∧
    (targetExpiry s t).speed = s.speed ∧
    (targetExpiry s t).wavePattern = s.wavePattern ∧
    (targetExpiry s t).difficulty = s.difficulty ∧
    (targetExpiry s t).isPlaying = s.isPlaying ∧
    (targetExpiry s t).powerUpActive = s.powerUpActive := by
  unfold targetExpiry loseLife
  by_cases h1 : s.lives - 1 ≤ 0 <;> repeat' split <;> simp_all

/-- The expiry tick in the firing case. -/
lemma targetExpiry_fires (s : GameState) (t : Nat × Nat)
    (hp : s.isPlaying = true) (hg : s.gameOver = false)
    (ht : s.targetCell.isSome = true) (hpu : s.powerUpActive = false) :
    (targetExpiry s t).lives = s.lives - 1 ∧
    (targetExpiry s t).targetCell = some t ∧
    (targetExpiry s t).gameOver = (if s.lives - 1 ≤ 0 then true else false) ∧
    (targetExpiry s t).highScore
        = (if s.lives - 1 ≤ 0 then max s.highScore s.score else s.highScore) := by
  unfold targetExpiry loseLife
  simp only [hp, hg, ht, hpu, Bool.not_false, Bool.and_self, if_true,
    Bool.and_true, Bool.not_true, Bool.and_false]
  by_cases hl : s.lives - 1 ≤ 0 <;> simp [hl]

/-- The expiry tick in the non-firing cases (stopped scheduler, no target, or
shield active): the state is unchanged. -/
lemma targetExpiry_skips (s : GameState) (t : Nat × Nat)
    (h : s.isPlaying = false ∨ s.gameOver = true ∨ s.targetCell = none ∨
         s.powerUpActive = true) :
    targetExpiry s t = s := by
  unfold targetExpiry
  rcases h with h | h | h | h <;> simp [h]

/-- One guaranteed hit from a state whose target is (0, 0): combo increments
and the playing/alive/target invariant is preserved. -/
lemma hitStep_preserves (s : GameState)
    (hp : s.isPlaying = true) (hg : s.gameOver = false)
    (ht : s.targetCell = some (0, 0)) :
    (hitStep s).combo = s.combo + 1 ∧ (hitStep s).isPlaying = true ∧
    (hitStep s).gameOver = false ∧ (hitStep s).targetCell = some (0, 0) := by
  unfold hitStep
  obtain ⟨-, h2, -, -, h5, h6, -, -, h9⟩ :=
    handleCellClick_hit s fullGrid 0 0 (0, 0) WavePattern.NORMAL hp hg ht rfl
  exact ⟨h2, h6, h5, h9⟩

/-- Along a run of guaranteed hits from the start state, the game stays
playing and alive with the target at (0, 0). -/
lemma hitRun_inv (m : Nat) :
    (hitStep^[m] start).isPlaying = true ∧
    (hitStep^[m] start).gameOver = false ∧
    (hitStep^[m] start).targetCell = some (0, 0) := by
  induction m with
  | zero => exact ⟨rfl, rfl, rfl⟩
  | succ j ihj =>
    rw [Function.iterate_succ_apply']
    obtain ⟨a, b, c⟩ := ihj
    obtain ⟨-, x, y, z⟩ := hitStep_preserves _ a b c
    exact ⟨x, y, z⟩

/-- C1: on a hit (click on the active target while that cell is lit), the
points awarded are 100 * min(combo + 1, 5) * level * difficulty computed
from the pre-hit values; score increases by exactly that amount and combo
by exactly 1; with pre-hit combo 2, level 3, difficulty 1.5 the points are
1350. -/
theorem C1_hit_scoring (s : GameState) (grid : Nat → Nat → Bool)
    (row col : Nat) (t : Nat × Nat) (p : WavePattern)
    (hp : s.isPlaying = true) (hg : s.gameOver = false)
    (ht : s.targetCell = some (row, col)) (hl : grid row col = true) :
    (handleCellClick s grid row col t p).score
        = s.score + 100 * ((min (s.combo + 1) 5 : Nat) : ℚ)
            * (s.level : ℚ) * s.difficulty ∧
    (handleCellClick s grid row col t p).combo = s.combo + 1 ∧
    points 2 3 (3/2) = 1350 := by
  obtain ⟨h1, h2, -⟩ := handleCellClick_hit s grid row col t p hp hg ht hl
  exact ⟨by rw [h1]; simp [points], h2, by norm_num [points]⟩

/-- C1 witness: the theorem applied at the spec's numeric example, a state
with combo 2, level 3, difficulty 3/2 and the target at (0, 0). -/
theorem C1_hit_scoring_witness :
    (handleCellClick sC1 fullGrid 0 0 (1, 1) WavePattern.NORMAL).score
        = sC1.score + 100 * ((min (sC1.combo + 1) 5 : Nat) : ℚ)
            * (sC1.level : ℚ) * sC1.difficulty ∧
    (handleCellClick sC1 fullGrid 0 0 (1, 1) WavePattern.NORMAL).combo
        = sC1.combo + 1 ∧
    points 2 3 (3/2) = 1350 :=
  C1_hit_scoring sC1 fullGrid 0 0 (1, 1) WavePattern.NORMAL rfl rfl rfl rfl

/-- C5: a single hit advances the level by at most one: the level after a
hit is the pre-hit level plus one exactly when the post-add score reaches
level * 1000, and the pre-hit level otherwise, however far the points
overshoot. -/
theorem C5_single_level_per_hit (s : GameState) (grid : Nat → Nat → Bool)
    (row col : Nat) (t : Nat × Nat) (p : WavePattern)
    (hp : s.isPlaying = true) (hg : s.gameOver = false)
    (ht : s.targetCell = some (row, col)) (hl : grid row col = true) :
    (handleCellClick s grid row col t p).level
        = (if s.score + points s.combo s.level s.difficulty
              ≥ (s.level : ℚ) * 1000 then s.level + 1 else s.level) ∧
    (handleCellClick s grid row col t p).level ≤ s.level + 1 := by
  obtain ⟨-, -, h3, -⟩ := handleCellClick_hit s grid row col t p hp hg ht hl
  refine ⟨h3, ?_⟩
  rw [h3]
  split <;> omega

/-- C5 witness: the theorem applied at the start state (first hit, score
100 < 1000, so the level stays 1). -/
theorem C5_single_level_per_hit_witness :
    (handleCellClick start fullGrid 0 0 (1, 1) WavePattern.NORMAL).level
        = (if start.score + points start.combo start.level start.difficulty
              ≥ (start.level : ℚ) * 1000 then start.level + 1
           else start.level) ∧
    (handleCellClick start fullGrid 0 0 (1, 1) WavePattern.NORMAL).level
        ≤ start.level + 1 :=
  C5_single_level_per_hit start fullGrid 0 0 (1, 1) WavePattern.NORMAL
    rfl rfl rfl rfl

/-- C8: reset restores score 0, level 1, combo 0, lives 3, gameOver false,
speed 100, pattern NORMAL, difficulty 1, powerUpActive false, an all-unlit
grid, and leaves highScore unchanged. -/
theorem C8_reset_state (s : GameState) :
    (reset s).score = 0 ∧ (reset s).level = 1 ∧ (reset s).combo = 0 ∧
    (reset s).lives = 3 ∧ (reset s).gameOver = false ∧
    (reset s).speed = 100 ∧
    (reset s).wavePattern = WavePattern.NORMAL ∧
    (reset s).difficulty = 1 ∧ (reset s).powerUpActive = false ∧
    (reset s).highScore = s.highScore ∧
    (∀ r c : Nat, createEmptyGrid r c = false) := by
  unfold reset createEmptyGrid
  simp

/-- C10: the stored combo counter is never clamped — after n consecutive
hits from the start it equals n — while the points factor min(combo + 1, 5)
is capped, so from combo 4 onward the awarded points are 500 * level *
difficulty. -/
theorem C10_combo_unclamped :
    (∀ n : Nat, (hitStep^[n] start).combo = n) ∧
    (∀ (n l : Nat) (d : ℚ), points (n + 4) l d = 500 * (l : ℚ) * d) := by
  constructor
  · intro n
    induction n with
    | zero => rfl
    | succ k ih =>
      rw [Function.iterate_succ_apply']
      obtain ⟨a, b, c⟩ := hitRun_inv k
      rw [(hitStep_preserves _ a b c).1, ih]
  · intro n l d
    have hmin : min (n + 4 + 1) 5 = 5 := by omega
    rw [points, hmin]
    push_cast
    ring

/-- C3: the SPLIT lit-column set is NOT reflection-invariant: at sweep
position 18, column 2 is lit but its mirror 19 - 2 = 17 is not.  The
spec's second band ((cols - 1) - (position + j)) mod cols would light 17
(at j = 4 the operand is -3 and -3 mod 20 = 17), but the JS remainder of
-3 is -3 and the write at index -3 falls outside the grid. -/
theorem C3_split_reflection_fails :
    splitCell 18 2 = true ∧ splitCell 18 (cols - 1 - 2) = false ∧
    ((20 : Int) - 1 - (18 + 4)) % 20 = 17 := by decide

/-- C4: the NORMAL pattern with direction +1 lights exactly the columns
(p + j) mod cols for j < waveWidth, but with direction -1 the mirrored
formula loses its wrapped columns: at position 19 only column 0 is lit,
while the claimed mirrored set ((cols - 1) - (p + j)) mod cols also
contains 19 (at j = 1 the operand is -1 and -1 mod 20 = 19; the JS
remainder of -1 is -1 and the write at index -1 falls outside the grid). -/
theorem C4_normal_pattern :
    (∀ p c : Fin cols,
       normalCell 1 p c = true ↔ ∃ j : Fin waveWidth, (c : Nat) = (p + j) % cols) ∧
    normalCell (-1) 19 0 = true ∧ normalCell (-1) 19 19 = false ∧
    ((20 : Int) - 1 - (19 + 1)) % 20 = 19 := by decide

/-- C2 counterexample: after three hits from the start state the combo is 3;
a target-expiry tick then costs a life (3 → 2) yet leaves the combo at 3,
so combo does not reset on every lives-loss event. -/
theorem C2_counterexample :
    threeHits.combo = 3 ∧
    (targetExpiry threeHits (0, 0)).lives = threeHits.lives - 1 ∧
    (targetExpiry threeHits (0, 0)).lives = 2 ∧
    (targetExpiry threeHits (0, 0)).combo = 3 := by
  norm_num [threeHits, hitStep, handleCellClick, start, points, loseLife,
    targetExpiry, fullGrid]

/-- C2 amended: combo resets to 0 on any click-miss and increments by 1 on
every hit, but a target-expiry miss (which costs a life) leaves combo
unchanged. -/
theorem C2_combo_rules (s : GameState) (grid : Nat → Nat → Bool)
    (row col : Nat) (t : Nat × Nat) (p : WavePattern) (tgt : Nat × Nat) :
    (∀ u : Nat × Nat, (targetExpiry s u).combo = s.combo) ∧
    (s.isPlaying = true → s.gameOver = false → s.targetCell = some tgt →
      (¬(row = tgt.1 ∧ col = tgt.2 ∧ grid row col = true) →
        (handleCellClick s grid row col t p).combo = 0) ∧
      ((row = tgt.1 ∧ col = tgt.2 ∧ grid row col = true) →
        (handleCellClick s grid row col t p).combo = s.combo + 1)) := by
  refine ⟨fun u => (targetExpiry_fields s u).2.1, fun hp hg ht => ⟨fun hm => ?_, fun hh => ?_⟩⟩
  · exact (handleCellClick_miss s grid row col t p tgt hp hg ht hm).2.1
  · obtain ⟨hr, hc, hl⟩ := hh
    have ht2 : s.targetCell = some (row, col) := by rw [ht, hr, hc]
    exact (handleCellClick_hit s grid row col t p hp hg ht2 hl).2.1

/-- C2 witness: at the start state a hit at the target (0, 0) raises combo
to 1, a click-miss at (1, 1) resets it to 0, and an expiry tick leaves it
unchanged. -/
theorem C2_combo_rules_witness :
    (targetExpiry start (2, 2)).combo = start.combo ∧
    (handleCellClick start fullGrid 1 1 (3, 3) WavePattern.NORMAL).combo = 0 ∧
    (handleCellClick start fullGrid 0 0 (3, 3) WavePattern.NORMAL).combo
        = start.combo + 1 :=
  ⟨(C2_combo_rules start fullGrid 0 0 (3, 3) WavePattern.NORMAL (0, 0)).1 (2, 2),
   ((C2_combo_rules start fullGrid 1 1 (3, 3) WavePattern.NORMAL (0, 0)).2
      rfl rfl rfl).1 (by decide),
   ((C2_combo_rules start fullGrid 0 0 (3, 3) WavePattern.NORMAL (0, 0)).2
      rfl rfl rfl).2 ⟨rfl, rfl, rfl⟩⟩

/-- C7: while playing with an active target, a click is a Hit exactly when
its coordinates equal the target's and that cell is lit (and then combo
increments); a coordinate match on an unlit cell is a Miss, resetting combo
and costing a life unless the shield is active; when not playing, game
over, or no target is active, the click is Ignored and changes nothing. -/
theorem C7_click_resolution (s : GameState) (grid : Nat → Nat → Bool)
    (row col : Nat) (t : Nat × Nat) (p : WavePattern) :
    (∀ tgt : Nat × Nat, s.targetCell = some tgt → s.isPlaying = true →
      s.gameOver = false →
      ((resolveClick s grid row col = Outcome.Hit ↔
          row = tgt.1 ∧ col = tgt.2 ∧ grid row col = true) ∧
       (resolveClick s grid row col = Outcome.Hit →
          (handleCellClick s grid row col t p).combo = s.combo + 1) ∧
       (row = tgt.1 → col = tgt.2 → grid row col = false →
          resolveClick s grid row col = Outcome.Miss ∧
          (handleCellClick s grid row col t p).combo = 0 ∧
          (s.powerUpActive = false →
            (handleCellClick s grid row col t p).lives = s.lives - 1)))) ∧
    ((s.isPlaying = false ∨ s.gameOver = true ∨ s.targetCell = none) →
      resolveClick s grid row col = Outcome.Ignored ∧
      handleCellClick s grid row col t p = s) := by
  constructor
  · intro tgt ht hp hg
    have hres : resolveClick s grid row col
        = if row = tgt.1 ∧ col = tgt.2 ∧ grid row col = true
          then Outcome.Hit else Outcome.Miss := by
      unfold resolveClick
      simp [hp, hg, ht]
    refine ⟨?_, ?_, ?_⟩
    · rw [hres]
      by_cases hc : row = tgt.1 ∧ col = tgt.2 ∧ grid row col = true <;>
        simp [hc]
    · intro hhit
      rw [hres] at hhit
      by_cases hc : row = tgt.1 ∧ col = tgt.2 ∧ grid row col = true
      · obtain ⟨hr, hcc, hl⟩ := hc
        have ht2 : s.targetCell = some (row, col) := by rw [ht, hr, hcc]
        exact (handleCellClick_hit s grid row col t p hp hg ht2 hl).2.1
      · rw [if_neg hc] at hhit
        exact absurd hhit (by simp)
    · intro hr hcc hunlit
      have hm : ¬(row = tgt.1 ∧ col = tgt.2 ∧ grid row col = true) := by
        simp [hunlit]
      obtain ⟨-, h2, -, -, -, -, -, -, -, h10, -⟩ :=
        handleCellClick_miss s grid row col t p tgt hp hg ht hm
      refine ⟨by rw [hres, if_neg hm], h2, fun hpu => ?_⟩
      rw [h10, hpu]
      simp
  · intro h
    refine ⟨?_, handleCellClick_ignored s grid row col t p h⟩
    unfold resolveClick
    rcases h with h | h | h <;> simp [h]

/-- C7 witness: at the start state (target (0, 0)) a lit click at (0, 0) is
a Hit; the same click on an all-unlit grid is a Miss that resets combo and
costs a life; after game over the click is Ignored and the state is
unchanged. -/
theorem C7_click_resolution_witness :
    (resolveClick start fullGrid 0 0 = Outcome.Hit ↔
       (0 : Nat) = (0, 0).1 ∧ (0 : Nat) = (0, 0).2 ∧ fullGrid 0 0 = true) ∧
    (resolveClick start createEmptyGrid 0 0 = Outcome.Miss ∧
     (handleCellClick start createEmptyGrid 0 0 (1, 1)
        WavePattern.NORMAL).combo = 0 ∧
     (start.powerUpActive = false →
       (handleCellClick start createEmptyGrid 0 0 (1, 1)
          WavePattern.NORMAL).lives = start.lives - 1)) ∧
    (resolveClick sGO fullGrid 0 0 = Outcome.Ignored ∧
     handleCellClick sGO fullGrid 0 0 (1, 1) WavePattern.NORMAL = sGO) :=
  ⟨((C7_click_resolution start fullGrid 0 0 (1, 1) WavePattern.NORMAL).1
      (0, 0) rfl rfl rfl).1,
   ((C7_click_resolution start createEmptyGrid 0 0 (1, 1)
      WavePattern.NORMAL).1 (0, 0) rfl rfl rfl).2.2 rfl rfl rfl,
   (C7_click_resolution sGO fullGrid 0 0 (1, 1) WavePattern.NORMAL).2
      (Or.inr (Or.inl rfl))⟩

/-- C9: every miss — a click on a wrong or unlit cell, or a target expiry —
leaves score, level, wavePattern, speed and difficulty unchanged, leaves
highScore unchanged unless the step ends the game, and a click-miss leaves
even the target unchanged. -/
theorem C9_miss_frame (s : GameState) (grid : Nat → Nat → Bool)
    (row col : Nat) (t : Nat × Nat) (p : WavePattern) (tgt : Nat × Nat) :
    (∀ u : Nat × Nat,
       (targetExpiry s u).score = s.score ∧
       (targetExpiry s u).level = s.level ∧
       (targetExpiry s u).wavePattern = s.wavePattern ∧
       (targetExpiry s u).speed = s.speed ∧
       (targetExpiry s u).difficulty = s.difficulty ∧
       ((targetExpiry s u).gameOver = false →
          (targetExpiry s u).highScore = s.highScore)) ∧
    (s.isPlaying = true → s.gameOver = false → s.targetCell = some tgt →
     ¬(row = tgt.1 ∧ col = tgt.2 ∧ grid row col = true) →
       (handleCellClick s grid row col t p).score = s.score ∧
       (handleCellClick s grid row col t p).level = s.level ∧
       (handleCellClick s grid row col t p).wavePattern = s.wavePattern ∧
       (handleCellClick s grid row col t p).speed = s.speed ∧
       (handleCellClick s grid row col t p).difficulty = s.difficulty ∧
       (handleCellClick s grid row col t p).targetCell = s.targetCell ∧
       ((handleCellClick s grid row col t p).gameOver = false →
          (handleCellClick s grid row col t p).highScore = s.highScore)) := by
  constructor
  · intro u
    obtain ⟨h1, -, h3, h4, h5, h6, -, -⟩ := targetExpiry_fields s u
    refine ⟨h1, h3, h5, h4, h6, ?_⟩
    unfold targetExpiry loseLife
    by_cases hl : s.lives - 1 ≤ 0 <;> repeat' split <;> simp_all
  · intro hp hg ht hm
    obtain ⟨h1, -, h3, h4, h5, h6, -, h8, -, -, h11, h12⟩ :=
      handleCellClick_miss s grid row col t p tgt hp hg ht hm
    refine ⟨h1, h3, h5, h4, h6, h8, fun hgo => ?_⟩
    rw [h11] at hgo
    rw [h12]
    split
    · simp_all
    · rfl

/-- C9 witness: an expiry tick and a click-miss at (1, 1) from the start
state, where no game over is triggered. -/
theorem C9_miss_frame_witness :
    ((targetExpiry start (2, 2)).score = start.score ∧
     (targetExpiry start (2, 2)).level = start.level ∧
     (targetExpiry start (2, 2)).wavePattern = start.wavePattern ∧
     (targetExpiry start (2, 2)).speed = start.speed ∧
     (targetExpiry start (2, 2)).difficulty = start.difficulty ∧
     ((targetExpiry start (2, 2)).gameOver = false →
        (targetExpiry start (2, 2)).highScore = start.highScore)) ∧
    ((handleCellClick start fullGrid 1 1 (3, 3) WavePattern.NORMAL).score
        = start.score ∧
     (handleCellClick start fullGrid 1 1 (3, 3) WavePattern.NORMAL).level
        = start.level ∧
     (handleCellClick start fullGrid 1 1 (3, 3)
        WavePattern.NORMAL).wavePattern = start.wavePattern ∧
     (handleCellClick start fullGrid 1 1 (3, 3) WavePattern.NORMAL).speed
        = start.speed ∧
     (handleCellClick start fullGrid 1 1 (3, 3)
        WavePattern.NORMAL).difficulty = start.difficulty ∧
     (handleCellClick start fullGrid 1 1 (3, 3)
        WavePattern.NORMAL).targetCell = start.targetCell ∧
     ((handleCellClick start fullGrid 1 1 (3, 3)
         WavePattern.NORMAL).gameOver = false →
        (handleCellClick start fullGrid 1 1 (3, 3)
           WavePattern.NORMAL).highScore = start.highScore)) :=
  ⟨(C9_miss_frame start fullGrid 1 1 (3, 3) WavePattern.NORMAL (0, 0)).1
      (2, 2),
   (C9_miss_frame start fullGrid 1 1 (3, 3) WavePattern.NORMAL (0, 0)).2
      rfl rfl rfl (by decide)⟩

/-- C6: once gameOver is set, every engine event except reset leaves score,
lives and level untouched and gameOver true, and every click returns the
state unchanged; the step that first sets gameOver snapshots highScore to
max(previous highScore, final score) and leaves lives at ≤ 0, so the
transition happens exactly once per run. -/
theorem C6_game_over_terminal (s : GameState) (e : Event) :
    (s.gameOver = true → e ≠ Event.resetGame →
       (step s e).score = s.score ∧ (step s e).lives = s.lives ∧
       (step s e).level = s.level ∧ (step s e).gameOver = true) ∧
    (s.gameOver = true →
       ∀ (grid : Nat → Nat → Bool) (row col : Nat) (t : Nat × Nat)
         (p : WavePattern), handleCellClick s grid row col t p = s) ∧
    (s.gameOver = false → (step s e).gameOver = true →
       (step s e).highScore = max s.highScore s.score ∧
       (step s e).lives ≤ 0) := by
  refine ⟨?_, ?_, ?_⟩
  · intro hg hne
    cases e with
    | click row col grid nt rp =>
      rw [step, handleCellClick_ignored s grid row col nt rp
        (Or.inr (Or.inl hg))]
      exact ⟨rfl, rfl, rfl, hg⟩
    | expiry nt =>
      rw [step, targetExpiry_skips s nt (Or.inr (Or.inl hg))]
      exact ⟨rfl, rfl, rfl, hg⟩
    | powerUpStart => simp [step, hg]
    | powerUpEnd => simp [step, hg]
    | togglePlay => simp [step, hg]
    | resetGame => exact absurd rfl hne
  · intro hg grid row col t p
    exact handleCellClick_ignored s grid row col t p (Or.inr (Or.inl hg))
  · intro hg hgo
    cases e with
    | click row col grid nt rp =>
      rw [step] at hgo ⊢
      by_cases hp : s.isPlaying = true
      · cases hcase : s.targetCell with
        | none =>
          rw [handleCellClick_ignored s grid row col nt rp
            (Or.inr (Or.inr hcase))] at hgo
          exact absurd hgo (by simp [hg])
        | some tgt =>
          by_cases hhit : row = tgt.1 ∧ col = tgt.2 ∧ grid row col = true
          · obtain ⟨hr, hc, hl⟩ := hhit
            have ht2 : s.targetCell = some (row, col) := by
              rw [hcase, hr, hc]
            obtain ⟨-, -, -, -, h5, -⟩ :=
              handleCellClick_hit s grid row col nt rp hp hg ht2 hl
            exact absurd hgo (by simp [h5])
          · obtain ⟨-, -, -, -, -, -, -, -, -, h10, h11, h12⟩ :=
              handleCellClick_miss s grid row col nt rp tgt hp hg hcase hhit
            rw [h11] at hgo
            have hcond : s.powerUpActive = false ∧ s.lives - 1 ≤ 0 := by
              by_contra hcon
              rw [if_neg hcon] at hgo
              exact absurd hgo (by simp)
            rw [h12, if_pos hcond, h10, hcond.1]
            exact ⟨rfl, by simpa using hcond.2⟩
      · rw [handleCellClick_ignored s grid row col nt rp
          (Or.inl (by simpa using hp))] at hgo
        exact absurd hgo (by simp [hg])
    | expiry nt =>
      rw [step] at hgo ⊢
      by_cases hp : s.isPlaying = true
      · by_cases ht : s.targetCell.isSome = true
        · by_cases hpu : s.powerUpActive = false
          · obtain ⟨h1, -, h3, h4⟩ := targetExpiry_fires s nt hp hg ht hpu
            rw [h3] at hgo
            have hl : s.lives - 1 ≤ 0 := by
              by_contra hcon
              rw [if_neg hcon] at hgo
              exact absurd hgo (by simp)
            rw [h4, if_pos hl, h1]
            exact ⟨rfl, hl⟩
          · rw [targetExpiry_skips s nt
              (Or.inr (Or.inr (Or.inr (by simpa using hpu))))] at hgo
            exact absurd hgo (by simp [hg])
        · have : s.targetCell = none := by
            cases h : s.targetCell with
            | none => rfl
            | some v => rw [h] at ht; exact absurd rfl ht
          rw [targetExpiry_skips s nt (Or.inr (Or.inr (Or.inl this)))] at hgo
          exact absurd hgo (by simp [hg])
      · rw [targetExpiry_skips s nt (Or.inl (by simpa using hp))] at hgo
        exact absurd hgo (by simp [hg])
    | powerUpStart =>
      rw [step] at hgo
      split at hgo <;> simp_all
    | powerUpEnd =>
      rw [step] at hgo
      simp_all
    | togglePlay =>
      rw [step] at hgo
      split at hgo <;> simp_all
    | resetGame =>
      rw [step] at hgo
      simp [reset] at hgo

/-- C6 witness: with the start state marked game over, an expiry event and a
click change nothing; from a one-life state an expiry event that ends the
game snapshots the high score and leaves lives at 0. -/
theorem C6_game_over_terminal_witness :
    ((step sGO (Event.expiry (0, 0))).score = sGO.score ∧
     (step sGO (Event.expiry (0, 0))).lives = sGO.lives ∧
     (step sGO (Event.expiry (0, 0))).level = sGO.level ∧
     (step sGO (Event.expiry (0, 0))).gameOver = true) ∧
    handleCellClick sGO fullGrid 0 0 (1, 1) WavePattern.NORMAL = sGO ∧
    ((step sLastLife (Event.expiry (0, 0))).highScore
        = max sLastLife.highScore sLastLife.score ∧
     (step sLastLife (Event.expiry (0, 0))).lives ≤ 0) := by
  refine ⟨(C6_game_over_terminal sGO (Event.expiry (0, 0))).1 rfl
            (fun h => Event.noConfusion h),
          (C6_game_over_terminal sGO (Event.expiry (0, 0))).2.1 rfl
            fullGrid 0 0 (1, 1) WavePattern.NORMAL,
          (C6_game_over_terminal sLastLife (Event.expiry (0, 0))).2.2
            rfl ?_⟩
  simp [step, targetExpiry, loseLife, sLastLife, start]

end MovingGrid
